import Mathlib

/-!
Verification of the GPIO driver-validation test suite (CMSIS-Driver Validation).

The development shallowly embeds the two source files `Source/DV_GPIO.c` and
`Source/DV_GPIO.MC.c`.  The event-recorder callback `GPIO_DrvEvent` is embedded
as a pure function on the recorder state (the three `volatile` globals).  Each
test procedure is embedded as a function that, given an abstract driver
environment, threads the machine state and emits a trace of the actions the C
code performs (driver calls, recorder resets, delays, IRQ masking, assertion
outcomes, failure reports).  The driver itself is external to the repository;
an ideal driver model (from the spec's contract for the facade) provides the
concrete environments used for concrete runs.
-/

/-- Status code `ARM_DRIVER_OK` of the external CMSIS driver interface. -/
def ARM_DRIVER_OK : Int := 0

/-- Generic error status of the external CMSIS driver interface. -/
def ARM_DRIVER_ERROR : Int := -1

/-- Event flag `ARM_GPIO_EVENT_RISING_EDGE` (bit 0) of the external
`Driver_GPIO.h` interface; the spec describes the mask as holding a
rising-edge bit, a falling-edge bit and an either-edge bit. -/
def ARM_GPIO_EVENT_RISING_EDGE : Nat := 1

/-- Event flag `ARM_GPIO_EVENT_FALLING_EDGE` (bit 1). -/
def ARM_GPIO_EVENT_FALLING_EDGE : Nat := 2

/-- Event flag `ARM_GPIO_EVENT_EITHER_EDGE` (bit 2). -/
def ARM_GPIO_EVENT_EITHER_EDGE : Nat := 4

/-- Direction value `ARM_GPIO_INPUT`. -/
def ARM_GPIO_INPUT : Nat := 0

/-- Direction value `ARM_GPIO_OUTPUT`. -/
def ARM_GPIO_OUTPUT : Nat := 1

/-- Output-mode value `ARM_GPIO_PUSH_PULL`. -/
def ARM_GPIO_PUSH_PULL : Nat := 0

/-- Output-mode value `ARM_GPIO_OPEN_DRAIN`. -/
def ARM_GPIO_OPEN_DRAIN : Nat := 1

/-- Pull-resistor value `ARM_GPIO_PULL_NONE`. -/
def ARM_GPIO_PULL_NONE : Nat := 0

/-- Pull-resistor value `ARM_GPIO_PULL_UP`. -/
def ARM_GPIO_PULL_UP : Nat := 1

/-- Pull-resistor value `ARM_GPIO_PULL_DOWN`. -/
def ARM_GPIO_PULL_DOWN : Nat := 2

/-- Trigger value `ARM_GPIO_TRIGGER_NONE`. -/
def ARM_GPIO_TRIGGER_NONE : Nat := 0

/-- Trigger value `ARM_GPIO_TRIGGER_RISING_EDGE`. -/
def ARM_GPIO_TRIGGER_RISING_EDGE : Nat := 1

/-- Trigger value `ARM_GPIO_TRIGGER_FALLING_EDGE`. -/
def ARM_GPIO_TRIGGER_FALLING_EDGE : Nat := 2

/-- Trigger value `ARM_GPIO_TRIGGER_EITHER_EDGE`. -/
def ARM_GPIO_TRIGGER_EITHER_EDGE : Nat := 3

/-- The event-recorder state: the three module-global `volatile` variables of
`DV_GPIO.c` (`gpio_event : uint8_t`, `gpio_pin : ARM_GPIO_Pin_t`,
`gpio_irq_cnt : uint8_t`) and identically of `DV_GPIO.MC.c` (`GPIO_Event`,
`GPIO_Pin`, `IRQ_cnt`).  `event` and `cnt` model 8-bit unsigned variables
(values kept below 256); `pin` models the 32-bit `ARM_GPIO_Pin_t`. -/
structure Recorder where
  event : Nat
  pin   : Nat
  cnt   : Nat
deriving Repr, DecidableEq

/-- The zeroed recorder: the initial value of the globals, and the value
written by the sequencer's reset (`gpio_event = 0; gpio_pin = 0;
gpio_irq_cnt = 0;`). -/
def recorderReset : Recorder := ⟨0, 0, 0⟩

/-- The driver event callback `GPIO_DrvEvent` (identical in `DV_GPIO.c` lines
70-74 and `DV_GPIO.MC.c` lines 55-59):

`gpio_event |= event; gpio_pin = pin; gpio_irq_cnt += 1U;`

`gpio_event` and `gpio_irq_cnt` are `uint8_t`, so the compound assignments
truncate to 8 bits; `pin` is stored unchanged (the argument already has the
field's type `ARM_GPIO_Pin_t`). -/
def GPIO_DrvEvent (s : Recorder) (pin : Nat) (event : Nat) : Recorder :=
  ⟨(s.event ||| event) % 256, pin, (s.cnt + 1) % 256⟩

/-- Condition of the rising-edge recorder assertion
(`gpio_event == ARM_GPIO_EVENT_RISING_EDGE`). -/
def risingMaskOk (r : Recorder) : Bool :=
  r.event == ARM_GPIO_EVENT_RISING_EDGE

/-- Condition of the falling-edge recorder assertion
(`gpio_event == ARM_GPIO_EVENT_FALLING_EDGE`). -/
def fallingMaskOk (r : Recorder) : Bool :=
  r.event == ARM_GPIO_EVENT_FALLING_EDGE

/-- Condition of the either-edge rising-transition mask assertion
(`gpio_event == ARM_GPIO_EVENT_RISING_EDGE || gpio_event ==
ARM_GPIO_EVENT_EITHER_EDGE`). -/
def eitherRisingMaskOk (r : Recorder) : Bool :=
  (r.event == ARM_GPIO_EVENT_RISING_EDGE) ||
  (r.event == ARM_GPIO_EVENT_EITHER_EDGE)

/-- Condition of the either-edge falling-transition mask assertion
(`gpio_event == ARM_GPIO_EVENT_FALLING_EDGE || gpio_event ==
ARM_GPIO_EVENT_EITHER_EDGE`). -/
def eitherFallingMaskOk (r : Recorder) : Bool :=
  (r.event == ARM_GPIO_EVENT_FALLING_EDGE) ||
  (r.event == ARM_GPIO_EVENT_EITHER_EDGE)

/-- Condition of the masked-window mask assertion
(`gpio_event & (ARM_GPIO_EVENT_RISING_EDGE | ARM_GPIO_EVENT_FALLING_EDGE) ||
gpio_event == ARM_GPIO_EVENT_EITHER_EDGE`; in C a nonzero `&` result counts
as true). -/
def maskedMaskOk (r : Recorder) : Bool :=
  (r.event &&& (ARM_GPIO_EVENT_RISING_EDGE ||| ARM_GPIO_EVENT_FALLING_EDGE)
     != 0) ||
  (r.event == ARM_GPIO_EVENT_EITHER_EDGE)

/-- Condition of the masked-window count assertion
(`gpio_irq_cnt == 1U || gpio_irq_cnt == 2U`). -/
def maskedCntOk (r : Recorder) : Bool :=
  (r.cnt == 1) || (r.cnt == 2)

/-- Condition `gpio_pin == p` of the pin assertions. -/
def pinIs (p : Nat) (r : Recorder) : Bool := r.pin == p

/-- Condition `gpio_irq_cnt == n` of the count assertions. -/
def cntIs (n : Nat) (r : Recorder) : Bool := r.cnt == n

/-- Condition `gpio_event == 0U` of the trigger-none mask assertion. -/
def noneMaskOk (r : Recorder) : Bool := r.event == 0

/-- Condition `gpio_pin == 0U` of the trigger-none pin assertion. -/
def nonePinOk (r : Recorder) : Bool := r.pin == 0

/-- Conjunction of the three assertions of the rising-edge sub-scenario
(`DV_GPIO.c` lines 577-583). -/
def risingSubPass (put : Nat) (r : Recorder) : Bool :=
  risingMaskOk r && pinIs put r && cntIs 1 r

/-- Conjunction of the three assertions of the falling-edge sub-scenario
(`DV_GPIO.c` lines 598-604). -/
def fallingSubPass (put : Nat) (r : Recorder) : Bool :=
  fallingMaskOk r && pinIs put r && cntIs 1 r

/-- Conjunction of the three assertions of the trigger-none sub-scenario
(`DV_GPIO.c` lines 661-667). -/
def noneSubPass (r : Recorder) : Bool :=
  noneMaskOk r && nonePinOk r && cntIs 0 r

/-- Conjunction of the three assertions of the masked-window sub-scenario
(`DV_GPIO.c` lines 687-694). -/
def maskedSubPass (put : Nat) (r : Recorder) : Bool :=
  maskedMaskOk r && pinIs put r && maskedCntOk r

/-- The accept-set that claim C3's wording describes for the masked-window
sub-scenario: occurrence count 1 or 2 and a mask with the rising- or
falling-edge bit set or equal to the either-edge flag (stated without any
condition on the last-triggering pin). -/
def specMaskedAccept (r : Recorder) : Bool :=
  maskedCntOk r && maskedMaskOk r

/-- A driver-facade call or scheduler primitive performed by a test
procedure.  These are the operations the suite invokes as black boxes:
the driver entry points, the delay primitive `osDelay`, and the interrupt
mask primitives. -/
inductive DrvOp where
  | setup (pin : Nat) (withCb : Bool)
  | setDir (pin : Nat) (dir : Nat)
  | setMode (pin : Nat) (mode : Nat)
  | setPull (pin : Nat) (res : Nat)
  | setTrig (pin : Nat) (trig : Nat)
  | setOut (pin : Nat) (lvl : Nat)
  | delay (ticks : Nat)
  | irqOff
  | irqOn
deriving Repr, DecidableEq

/-- One entry of the trace a test procedure emits: an external operation, a
recorder reset, an assertion outcome (`assert` for `TEST_ASSERT`,
`assertMsg` for `TEST_ASSERT_MESSAGE`), a `TEST_MESSAGE` report or a
`TEST_FAIL` report. -/
inductive Act where
  | op (o : DrvOp)
  | recReset
  | assert (ok : Bool)
  | assertMsg (ok : Bool)
  | message
  | fail
deriving Repr, DecidableEq

/-- The shape of a trace entry: the entry with assertion outcomes erased.
Traces of a procedure have an environment-independent shape (once the
availability probes succeed), which is what the ordering claims are about. -/
inductive ActS where
  | opS (o : DrvOp)
  | recResetS
  | assertS
  | assertMsgS
  | messageS
  | failS
deriving Repr, DecidableEq

/-- Erase an assertion outcome, keeping the action. -/
def Act.shape : Act → ActS
  | .op o => .opS o
  | .recReset => .recResetS
  | .assert _ => .assertS
  | .assertMsg _ => .assertMsgS
  | .message => .messageS
  | .fail => .failS

/-- Shape of a whole trace. -/
def shapes (l : List Act) : List ActS := l.map Act.shape

/-- All assertion outcomes in a trace are true (the procedure passed). -/
def allAssertsTrue : List Act → Bool
  | [] => true
  | .assert b :: rest => b && allAssertsTrue rest
  | .assertMsg b :: rest => b && allAssertsTrue rest
  | _ :: rest => allAssertsTrue rest

/-- The trace contains a `TEST_FAIL` report. -/
def hasFail : List Act → Bool
  | [] => false
  | .fail :: _ => true
  | _ :: rest => hasFail rest

/-- Every recorder reset in a (shaped) trace is immediately followed by a
`SetEventTrigger` call on pin `put`.  This is the ordering discipline claim
C6 requires of every sub-scenario. -/
def resetImmediatelyArms (put : Nat) : List ActS → Bool
  | [] => true
  | .recResetS :: rest =>
      (match rest with
       | .opS (.setTrig p _) :: _ => p == put
       | _ => false) && resetImmediatelyArms put rest
  | _ :: rest => resetImmediatelyArms put rest

/-- The abstract driver environment: the external collaborators a test
procedure calls.  `σ` is the driver-and-hardware state.  `step` performs an
operation, possibly invoking the registered event callback (which is why it
also transforms the recorder); `status` is the status code a status-returning
call observes at the pre-state; `input` is the level `GetInput` reads. -/
structure Env (σ : Type) where
  step : σ → Recorder → DrvOp → σ × Recorder
  status : σ → DrvOp → Int
  input : σ → Nat → Nat

/-- The state a test procedure threads: the external world, the recorder
globals, and the trace of emitted actions. -/
structure TState (σ : Type) where
  w : σ
  r : Recorder
  tr : List Act

/-- Initial test state: recorder globals zero-initialized, empty trace. -/
def initTS {σ : Type} (w : σ) : TState σ := ⟨w, recorderReset, []⟩

/-- Append a trace entry. -/
def emit {σ : Type} (s : TState σ) (a : Act) : TState σ :=
  ⟨s.w, s.r, s.tr ++ [a]⟩

/-- Perform a driver/scheduler operation (ignoring its status). -/
def runOp {σ : Type} (e : Env σ) (s : TState σ) (o : DrvOp) : TState σ :=
  ⟨(e.step s.w s.r o).1, (e.step s.w s.r o).2, s.tr ++ [.op o]⟩

/-- `TEST_ASSERT(call == ARM_DRIVER_OK)`: perform the call, then record the
status comparison. -/
def assertStat {σ : Type} (e : Env σ) (s : TState σ) (o : DrvOp) : TState σ :=
  emit (runOp e s o) (.assert (e.status s.w o == ARM_DRIVER_OK))

/-- `TEST_ASSERT_MESSAGE(cond(recorder), ...)`: record a recorder assertion. -/
def assertRec {σ : Type} (s : TState σ) (c : Recorder → Bool) : TState σ :=
  emit s (.assertMsg (c s.r))

/-- `TEST_ASSERT(drv->GetInput(pin) == v)`. -/
def assertInput {σ : Type} (e : Env σ) (s : TState σ) (pin v : Nat) :
    TState σ :=
  emit s (.assert (e.input s.w pin == v))

/-- The sequencer's recorder reset (`gpio_event = 0; gpio_pin = 0;
gpio_irq_cnt = 0;`). -/
def doReset {σ : Type} (s : TState σ) : TState σ :=
  ⟨s.w, recorderReset, s.tr ++ [.recReset]⟩

/-- The failure tail a procedure emits when an availability probe fails:
`TEST_MESSAGE` (inside the probe helper) then `TEST_FAIL` in the caller,
then return. -/
def probeFailTail {σ : Type} (s : TState σ) : TState σ :=
  emit (emit s .message) .fail


namespace DV

/-- `PinUnderTestInit` of `DV_GPIO.c`: `drv->Setup(GPIO_PIN_UNDER_TEST, NULL)`. -/
def PinUnderTestInit {σ : Type} (e : Env σ) (put : Nat) (s : TState σ) :
    TState σ :=
  runOp e s (.setup put false)

/-- `PinUnderTestUninit` of `DV_GPIO.c`: set the pin back to input, then
`Setup` with no callback. -/
def PinUnderTestUninit {σ : Type} (e : Env σ) (put : Nat) (s : TState σ) :
    TState σ :=
  runOp e (runOp e s (.setDir put ARM_GPIO_INPUT)) (.setup put false)

/-- `AuxiliaryPinInit` of `DV_GPIO.c`. -/
def AuxiliaryPinInit {σ : Type} (e : Env σ) (aux : Nat) (s : TState σ) :
    TState σ :=
  runOp e s (.setup aux false)

/-- `AuxiliaryPinUninit` of `DV_GPIO.c`. -/
def AuxiliaryPinUninit {σ : Type} (e : Env σ) (aux : Nat) (s : TState σ) :
    TState σ :=
  runOp e (runOp e s (.setDir aux ARM_GPIO_INPUT)) (.setup aux false)

/-- `AuxiliaryPinConfigInput` of `DV_GPIO.c`. -/
def AuxiliaryPinConfigInput {σ : Type} (e : Env σ) (aux : Nat)
    (s : TState σ) : TState σ :=
  runOp e s (.setDir aux ARM_GPIO_INPUT)

/-- `AuxiliaryPinConfigOutput` of `DV_GPIO.c`: push-pull mode, then output
direction. -/
def AuxiliaryPinConfigOutput {σ : Type} (e : Env σ) (aux : Nat)
    (s : TState σ) : TState σ :=
  runOp e (runOp e s (.setMode aux ARM_GPIO_PUSH_PULL))
    (.setDir aux ARM_GPIO_OUTPUT)

/-- `AuxiliaryPinSetOutput` of `DV_GPIO.c`: clear the pull resistor, then
drive the level. -/
def AuxiliaryPinSetOutput {σ : Type} (e : Env σ) (aux : Nat) (s : TState σ)
    (v : Nat) : TState σ :=
  runOp e (runOp e s (.setPull aux ARM_GPIO_PULL_NONE)) (.setOut aux v)

/-- `AuxiliaryPinDisable` of `DV_GPIO.c`: drive low, input direction,
open-drain mode. -/
def AuxiliaryPinDisable {σ : Type} (e : Env σ) (aux : Nat) (s : TState σ) :
    TState σ :=
  runOp e (runOp e (runOp e s (.setOut aux 0)) (.setDir aux ARM_GPIO_INPUT))
    (.setMode aux ARM_GPIO_OPEN_DRAIN)

/-- Test procedure `GPIO_Setup` of `DV_GPIO.c` (lines 247-259). -/
def GPIO_Setup {σ : Type} (e : Env σ) (put : Nat) (s0 : TState σ) :
    TState σ :=
  if e.status s0.w (.setup put false) = ARM_DRIVER_OK then
    let s := runOp e s0 (.setup put false)
    let s := assertStat e s (.setup put false)
    let s := assertStat e s (.setup put true)
    PinUnderTestUninit e put s
  else probeFailTail (runOp e s0 (.setup put false))

/-- Test procedure `GPIO_SetDirection` of `DV_GPIO.c` (lines 284-338). -/
def GPIO_SetDirection {σ : Type} (e : Env σ) (put aux : Nat)
    (s0 : TState σ) : TState σ :=
  if e.status s0.w (.setup put false) = ARM_DRIVER_OK then
    let s1 := runOp e s0 (.setup put false)
    if e.status s1.w (.setup aux false) = ARM_DRIVER_OK then
      let s := runOp e s1 (.setup aux false)
      let s := PinUnderTestInit e put s
      let s := AuxiliaryPinInit e aux s
      let s := assertStat e s (.setDir put ARM_GPIO_INPUT)
      let s := AuxiliaryPinConfigOutput e aux s
      let s := AuxiliaryPinSetOutput e aux s 0
      let s := runOp e s (.delay 2)
      let s := assertInput e s put 0
      let s := AuxiliaryPinSetOutput e aux s 1
      let s := runOp e s (.delay 2)
      let s := assertInput e s put 1
      let s := AuxiliaryPinConfigInput e aux s
      let s := assertStat e s (.setDir put ARM_GPIO_OUTPUT)
      let s := runOp e s (.setOut put 0)
      let s := runOp e s (.delay 2)
      let s := assertInput e s aux 0
      let s := runOp e s (.setOut put 1)
      let s := runOp e s (.delay 2)
      let s := assertInput e s aux 1
      let s := AuxiliaryPinUninit e aux s
      PinUnderTestUninit e put s
    else probeFailTail (runOp e s1 (.setup aux false))
  else probeFailTail (runOp e s0 (.setup put false))

/-- Test procedure `GPIO_SetOutputMode` of `DV_GPIO.c` (lines 361-407). -/
def GPIO_SetOutputMode {σ : Type} (e : Env σ) (put aux : Nat)
    (s0 : TState σ) : TState σ :=
  if e.status s0.w (.setup put false) = ARM_DRIVER_OK then
    let s1 := runOp e s0 (.setup put false)
    if e.status s1.w (.setup aux false) = ARM_DRIVER_OK then
      let s := runOp e s1 (.setup aux false)
      let s := PinUnderTestInit e put s
      let s := AuxiliaryPinInit e aux s
      let s := assertStat e s (.setDir put ARM_GPIO_OUTPUT)
      let s := assertStat e s (.setMode put ARM_GPIO_PUSH_PULL)
      let s := AuxiliaryPinConfigInput e aux s
      let s := runOp e s (.setOut put 0)
      let s := runOp e s (.delay 2)
      let s := assertInput e s aux 0
      let s := runOp e s (.setOut put 1)
      let s := runOp e s (.delay 2)
      let s := assertInput e s aux 1
      let s := assertStat e s (.setMode put ARM_GPIO_OPEN_DRAIN)
      let s := runOp e s (.setOut put 0)
      let s := runOp e s (.delay 2)
      let s := assertInput e s aux 0
      let s := AuxiliaryPinUninit e aux s
      PinUnderTestUninit e put s
    else probeFailTail (runOp e s1 (.setup aux false))
  else probeFailTail (runOp e s0 (.setup put false))

/-- Test procedure `GPIO_SetPullResistor` of `DV_GPIO.c` (lines 439-518). -/
def GPIO_SetPullResistor {σ : Type} (e : Env σ) (put aux : Nat)
    (s0 : TState σ) : TState σ :=
  if e.status s0.w (.setup put false) = ARM_DRIVER_OK then
    let s1 := runOp e s0 (.setup put false)
    if e.status s1.w (.setup aux false) = ARM_DRIVER_OK then
      let s := runOp e s1 (.setup aux false)
      let s := PinUnderTestInit e put s
      let s := AuxiliaryPinInit e aux s
      let s := assertStat e s (.setDir put ARM_GPIO_INPUT)
      let s := assertStat e s (.setPull put ARM_GPIO_PULL_NONE)
      let s := AuxiliaryPinConfigOutput e aux s
      let s := AuxiliaryPinSetOutput e aux s 0
      let s := runOp e s (.delay 2)
      let s := assertInput e s put 0
      let s := AuxiliaryPinSetOutput e aux s 1
      let s := runOp e s (.delay 2)
      let s := assertInput e s put 1
      let s := AuxiliaryPinDisable e aux s
      let s := assertStat e s (.setPull put ARM_GPIO_PULL_DOWN)
      let s := runOp e s (.delay 2)
      let s := assertInput e s put 0
      let s := AuxiliaryPinConfigOutput e aux s
      let s := AuxiliaryPinSetOutput e aux s 1
      let s := runOp e s (.delay 2)
      let s := assertInput e s put 1
      let s := AuxiliaryPinDisable e aux s
      let s := assertStat e s (.setPull put ARM_GPIO_PULL_UP)
      let s := runOp e s (.delay 2)
      let s := assertInput e s put 1
      let s := AuxiliaryPinConfigOutput e aux s
      let s := AuxiliaryPinSetOutput e aux s 0
      let s := runOp e s (.delay 2)
      let s := assertInput e s put 0
      let s := AuxiliaryPinUninit e aux s
      PinUnderTestUninit e put s
    else probeFailTail (runOp e s1 (.setup aux false))
  else probeFailTail (runOp e s0 (.setup put false))

/-- Test procedure `GPIO_SetEventTrigger` of `DV_GPIO.c` (lines 547-698):
the edge-trigger scenario with its six sub-scenarios (rising, falling,
either-rising, either-falling, none, masked window). -/
def GPIO_SetEventTrigger {σ : Type} (e : Env σ) (put aux : Nat)
    (s0 : TState σ) : TState σ :=
  if e.status s0.w (.setup put false) = ARM_DRIVER_OK then
    let s1 := runOp e s0 (.setup put false)
    if e.status s1.w (.setup aux false) = ARM_DRIVER_OK then
      let s := runOp e s1 (.setup aux false)
      let s := PinUnderTestInit e put s
      let s := AuxiliaryPinInit e aux s
      let s := assertStat e s (.setup put true)
      let s := AuxiliaryPinConfigOutput e aux s
      let s := AuxiliaryPinSetOutput e aux s 0
      let s := doReset s
      let s := assertStat e s (.setTrig put ARM_GPIO_TRIGGER_RISING_EDGE)
      let s := AuxiliaryPinSetOutput e aux s 1
      let s := runOp e s (.delay 2)
      let s := assertRec s risingMaskOk
      let s := assertRec s (pinIs put)
      let s := assertRec s (cntIs 1)
      let s := doReset s
      let s := assertStat e s (.setTrig put ARM_GPIO_TRIGGER_FALLING_EDGE)
      let s := AuxiliaryPinSetOutput e aux s 0
      let s := runOp e s (.delay 2)
      let s := assertRec s fallingMaskOk
      let s := assertRec s (pinIs put)
      let s := assertRec s (cntIs 1)
      let s := doReset s
      let s := assertStat e s (.setTrig put ARM_GPIO_TRIGGER_EITHER_EDGE)
      let s := AuxiliaryPinSetOutput e aux s 1
      let s := runOp e s (.delay 2)
      let s := assertRec s eitherRisingMaskOk
      let s := assertRec s (pinIs put)
      let s := assertRec s (cntIs 1)
      let s := doReset s
      let s := AuxiliaryPinSetOutput e aux s 0
      let s := runOp e s (.delay 2)
      let s := assertRec s eitherFallingMaskOk
      let s := assertRec s (pinIs put)
      let s := assertRec s (cntIs 1)
      let s := doReset s
      let s := assertStat e s (.setTrig put ARM_GPIO_TRIGGER_NONE)
      let s := AuxiliaryPinSetOutput e aux s 1
      let s := AuxiliaryPinSetOutput e aux s 0
      let s := runOp e s (.delay 2)
      let s := assertRec s noneMaskOk
      let s := assertRec s nonePinOk
      let s := assertRec s (cntIs 0)
      let s := assertStat e s (.setTrig put ARM_GPIO_TRIGGER_EITHER_EDGE)
      let s := doReset s
      let s := runOp e s .irqOff
      let s := AuxiliaryPinSetOutput e aux s 1
      let s := AuxiliaryPinSetOutput e aux s 0
      let s := runOp e s .irqOn
      let s := runOp e s (.delay 2)
      let s := assertRec s maskedMaskOk
      let s := assertRec s (pinIs put)
      let s := assertRec s maskedCntOk
      let s := AuxiliaryPinUninit e aux s
      PinUnderTestUninit e put s
    else probeFailTail (runOp e s1 (.setup aux false))
  else probeFailTail (runOp e s0 (.setup put false))

/-- Test procedure `GPIO_SetOutput` of `DV_GPIO.c` (lines 715-749): the
push-pull output/input round trip for levels 0 and 1. -/
def GPIO_SetOutput {σ : Type} (e : Env σ) (put aux : Nat) (s0 : TState σ) :
    TState σ :=
  if e.status s0.w (.setup put false) = ARM_DRIVER_OK then
    let s1 := runOp e s0 (.setup put false)
    if e.status s1.w (.setup aux false) = ARM_DRIVER_OK then
      let s := runOp e s1 (.setup aux false)
      let s := PinUnderTestInit e put s
      let s := AuxiliaryPinInit e aux s
      let s := assertStat e s (.setDir put ARM_GPIO_OUTPUT)
      let s := assertStat e s (.setMode put ARM_GPIO_PUSH_PULL)
      let s := AuxiliaryPinConfigInput e aux s
      let s := runOp e s (.setOut put 0)
      let s := runOp e s (.delay 2)
      let s := assertInput e s aux 0
      let s := runOp e s (.setOut put 1)
      let s := runOp e s (.delay 2)
      let s := assertInput e s aux 1
      let s := AuxiliaryPinUninit e aux s
      PinUnderTestUninit e put s
    else probeFailTail (runOp e s1 (.setup aux false))
  else probeFailTail (runOp e s0 (.setup put false))

/-- Test procedure `GPIO_GetInput` of `DV_GPIO.c` (lines 765-797). -/
def GPIO_GetInput {σ : Type} (e : Env σ) (put aux : Nat) (s0 : TState σ) :
    TState σ :=
  if e.status s0.w (.setup put false) = ARM_DRIVER_OK then
    let s1 := runOp e s0 (.setup put false)
    if e.status s1.w (.setup aux false) = ARM_DRIVER_OK then
      let s := runOp e s1 (.setup aux false)
      let s := PinUnderTestInit e put s
      let s := AuxiliaryPinInit e aux s
      let s := assertStat e s (.setDir put ARM_GPIO_INPUT)
      let s := AuxiliaryPinConfigOutput e aux s
      let s := AuxiliaryPinSetOutput e aux s 0
      let s := runOp e s (.delay 2)
      let s := assertInput e s put 0
      let s := AuxiliaryPinSetOutput e aux s 1
      let s := runOp e s (.delay 2)
      let s := assertInput e s put 1
      let s := AuxiliaryPinUninit e aux s
      PinUnderTestUninit e put s
    else probeFailTail (runOp e s1 (.setup aux false))
  else probeFailTail (runOp e s0 (.setup put false))

end DV

namespace MC

/-- `PinPull` of `DV_GPIO.MC.c`: drive `pin` to level `out` through the
external low resistor (output direction, push-pull, no pull resistor,
set output). -/
def PinPull {σ : Type} (e : Env σ) (s : TState σ) (pin out : Nat) :
    TState σ :=
  let s := runOp e s (.setDir pin ARM_GPIO_OUTPUT)
  let s := runOp e s (.setMode pin ARM_GPIO_PUSH_PULL)
  let s := runOp e s (.setPull pin ARM_GPIO_PULL_NONE)
  runOp e s (.setOut pin out)

/-- `PinDisable` of `DV_GPIO.MC.c`. -/
def PinDisable {σ : Type} (e : Env σ) (s : TState σ) (pin : Nat) :
    TState σ :=
  let s := runOp e s (.setOut pin 0)
  let s := runOp e s (.setDir pin ARM_GPIO_INPUT)
  runOp e s (.setMode pin ARM_GPIO_OPEN_DRAIN)

/-- `DriverInit` of `DV_GPIO.MC.c`: `Setup` both pins with no callback. -/
def DriverInit {σ : Type} (e : Env σ) (put aux : Nat) (s : TState σ) :
    TState σ :=
  runOp e (runOp e s (.setup put false)) (.setup aux false)

/-- Test procedure `GPIO_Setup` of `DV_GPIO.MC.c` (lines 160-172). -/
def GPIO_Setup {σ : Type} (e : Env σ) (put : Nat) (s0 : TState σ) :
    TState σ :=
  if e.status s0.w (.setup put false) = ARM_DRIVER_OK then
    let s := runOp e s0 (.setup put false)
    let s := assertStat e s (.setup put false)
    let s := assertStat e s (.setup put true)
    runOp e s (.setup put false)
  else probeFailTail (runOp e s0 (.setup put false))

/-- Test procedure `GPIO_SetDirection` of `DV_GPIO.MC.c` (lines 188-202). -/
def GPIO_SetDirection {σ : Type} (e : Env σ) (put : Nat) (s0 : TState σ) :
    TState σ :=
  if e.status s0.w (.setup put false) = ARM_DRIVER_OK then
    let s := runOp e s0 (.setup put false)
    let s := assertStat e s (.setup put false)
    let s := assertStat e s (.setDir put ARM_GPIO_INPUT)
    let s := assertStat e s (.setDir put ARM_GPIO_OUTPUT)
    runOp e s (.setup put false)
  else probeFailTail (runOp e s0 (.setup put false))

/-- Test procedure `GPIO_SetOutputMode` of `DV_GPIO.MC.c` (lines 218-232). -/
def GPIO_SetOutputMode {σ : Type} (e : Env σ) (put : Nat) (s0 : TState σ) :
    TState σ :=
  if e.status s0.w (.setup put false) = ARM_DRIVER_OK then
    let s := runOp e s0 (.setup put false)
    let s := assertStat e s (.setup put false)
    let s := assertStat e s (.setMode put ARM_GPIO_PUSH_PULL)
    let s := assertStat e s (.setMode put ARM_GPIO_OPEN_DRAIN)
    runOp e s (.setup put false)
  else probeFailTail (runOp e s0 (.setup put false))

/-- Test procedure `GPIO_SetPullResistor` of `DV_GPIO.MC.c`
(lines 249-266). -/
def GPIO_SetPullResistor {σ : Type} (e : Env σ) (put : Nat)
    (s0 : TState σ) : TState σ :=
  if e.status s0.w (.setup put false) = ARM_DRIVER_OK then
    let s := runOp e s0 (.setup put false)
    let s := assertStat e s (.setup put false)
    let s := assertStat e s (.setPull put ARM_GPIO_PULL_NONE)
    let s := assertStat e s (.setPull put ARM_GPIO_PULL_UP)
    let s := assertStat e s (.setPull put ARM_GPIO_PULL_DOWN)
    runOp e s (.setup put false)
  else probeFailTail (runOp e s0 (.setup put false))

/-- Test procedure `GPIO_SetEventTrigger` of `DV_GPIO.MC.c`
(lines 302-465): API status checks, then the six edge-trigger
sub-scenarios. -/
def GPIO_SetEventTrigger {σ : Type} (e : Env σ) (put aux : Nat)
    (s0 : TState σ) : TState σ :=
  if e.status s0.w (.setup put false) = ARM_DRIVER_OK then
    let s := runOp e s0 (.setup put false)
    let s := assertStat e s (.setup put false)
    let s := assertStat e s (.setTrig put ARM_GPIO_TRIGGER_NONE)
    let s := assertStat e s (.setTrig put ARM_GPIO_TRIGGER_RISING_EDGE)
    let s := assertStat e s (.setTrig put ARM_GPIO_TRIGGER_FALLING_EDGE)
    let s := assertStat e s (.setTrig put ARM_GPIO_TRIGGER_EITHER_EDGE)
    let s := runOp e s (.setup aux false)
    let s := PinPull e s aux 0
    let s := doReset s
    let s := assertStat e s (.setTrig put ARM_GPIO_TRIGGER_RISING_EDGE)
    let s := PinPull e s aux 1
    let s := runOp e s (.delay 100)
    let s := assertRec s risingMaskOk
    let s := assertRec s (pinIs put)
    let s := assertRec s (cntIs 1)
    let s := doReset s
    let s := assertStat e s (.setTrig put ARM_GPIO_TRIGGER_FALLING_EDGE)
    let s := PinPull e s aux 0
    let s := runOp e s (.delay 100)
    let s := assertRec s fallingMaskOk
    let s := assertRec s (pinIs put)
    let s := assertRec s (cntIs 1)
    let s := doReset s
    let s := assertStat e s (.setTrig put ARM_GPIO_TRIGGER_EITHER_EDGE)
    let s := PinPull e s aux 1
    let s := runOp e s (.delay 100)
    let s := assertRec s eitherRisingMaskOk
    let s := assertRec s (pinIs put)
    let s := assertRec s (cntIs 1)
    let s := doReset s
    let s := PinPull e s aux 0
    let s := runOp e s (.delay 100)
    let s := assertRec s eitherFallingMaskOk
    let s := assertRec s (pinIs put)
    let s := assertRec s (cntIs 1)
    let s := doReset s
    let s := assertStat e s (.setTrig put ARM_GPIO_TRIGGER_NONE)
    let s := PinPull e s aux 1
    let s := PinPull e s aux 0
    let s := runOp e s (.delay 100)
    let s := assertRec s noneMaskOk
    let s := assertRec s nonePinOk
    let s := assertRec s (cntIs 0)
    let s := assertStat e s (.setTrig put ARM_GPIO_TRIGGER_EITHER_EDGE)
    let s := doReset s
    let s := runOp e s .irqOff
    let s := PinPull e s aux 1
    let s := PinPull e s aux 0
    let s := runOp e s .irqOn
    let s := runOp e s (.delay 100)
    let s := assertRec s maskedMaskOk
    let s := assertRec s (pinIs put)
    let s := assertRec s maskedCntOk
    let s := runOp e s (.setTrig put ARM_GPIO_TRIGGER_NONE)
    PinDisable e s aux
  else probeFailTail (runOp e s0 (.setup put false))

/-- Test procedure `GPIO_SetOutput` of `DV_GPIO.MC.c` (lines 483-519).
Note: unlike the other procedures, it performs no availability probe; it
calls `DriverInit` without checking the `Setup` statuses. -/
def GPIO_SetOutput {σ : Type} (e : Env σ) (put aux : Nat) (s0 : TState σ) :
    TState σ :=
  let s := DriverInit e put aux s0
  let s := assertStat e s (.setDir put ARM_GPIO_OUTPUT)
  let s := assertStat e s (.setMode put ARM_GPIO_PUSH_PULL)
  let s := runOp e s (.setOut put 0)
  let s := assertInput e s put 0
  let s := runOp e s (.setOut put 1)
  let s := assertInput e s put 1
  let s := assertStat e s (.setMode put ARM_GPIO_OPEN_DRAIN)
  let s := runOp e s (.setOut put 0)
  assertInput e s put 0

/-- Test procedure `GPIO_GetInput` of `DV_GPIO.MC.c` (lines 542-616).
Like `GPIO_SetOutput` above it performs no availability probe. -/
def GPIO_GetInput {σ : Type} (e : Env σ) (put aux : Nat) (s0 : TState σ) :
    TState σ :=
  let s := DriverInit e put aux s0
  let s := assertStat e s (.setDir put ARM_GPIO_INPUT)
  let s := assertStat e s (.setPull put ARM_GPIO_PULL_NONE)
  let s := PinPull e s aux 0
  let s := runOp e s (.delay 100)
  let s := assertInput e s put 0
  let s := PinPull e s aux 1
  let s := runOp e s (.delay 100)
  let s := assertInput e s put 1
  let s := PinDisable e s aux
  let s := assertStat e s (.setPull put ARM_GPIO_PULL_DOWN)
  let s := runOp e s (.delay 100)
  let s := assertInput e s put 0
  let s := PinPull e s aux 1
  let s := runOp e s (.delay 100)
  let s := assertInput e s put 1
  let s := PinDisable e s aux
  let s := assertStat e s (.setPull put ARM_GPIO_PULL_UP)
  let s := runOp e s (.delay 100)
  let s := assertInput e s put 1
  let s := PinPull e s aux 0
  let s := runOp e s (.delay 100)
  let s := assertInput e s put 0
  PinDisable e s aux

end MC

/-- Modelled from the spec: the driver facade and the wired pin pair are
external collaborators (spec sections 2 and 6), so a conforming driver model
is built from the spec's contract.  `wire` is the common level of the two
wired pins; `trig` the armed trigger for the pin under test; `cb` whether the
event callback is registered; `irqEnabled` the global interrupt mask; `pend`
the edge events latched while interrupts are disabled, delivered in order
when they are re-enabled. -/
structure DrvModel where
  wire : Nat
  trig : Nat
  cb : Bool
  irqEnabled : Bool
  pend : List Nat
deriving Repr, DecidableEq

/-- The event flag a conforming driver signals for a wire transition from
`old` to `new` under trigger mode `trig` (none if no event is signalled). -/
def edgeEvent (trig old new : Nat) : Option Nat :=
  if old == new then none
  else if new == 1 then
    if trig == ARM_GPIO_TRIGGER_RISING_EDGE ||
       trig == ARM_GPIO_TRIGGER_EITHER_EDGE then
      some ARM_GPIO_EVENT_RISING_EDGE
    else none
  else
    if trig == ARM_GPIO_TRIGGER_FALLING_EDGE ||
       trig == ARM_GPIO_TRIGGER_EITHER_EDGE then
      some ARM_GPIO_EVENT_FALLING_EDGE
    else none

/-- Deliver an event: invoke the registered callback `GPIO_DrvEvent`
immediately when interrupts are enabled, otherwise latch it as pending. -/
def fireEvent (put : Nat) (w : DrvModel) (r : Recorder) (ev : Nat) :
    DrvModel × Recorder :=
  if w.irqEnabled then (w, GPIO_DrvEvent r put ev)
  else (⟨w.wire, w.trig, w.cb, w.irqEnabled, w.pend ++ [ev]⟩, r)

/-- Modelled from the spec: one step of the conforming driver model. -/
def idealStep (put : Nat) (w : DrvModel) (r : Recorder) (o : DrvOp) :
    DrvModel × Recorder :=
  match o with
  | .setup p withCb =>
      if p == put then (⟨w.wire, w.trig, withCb, w.irqEnabled, w.pend⟩, r)
      else (w, r)
  | .setTrig p t =>
      if p == put then (⟨w.wire, t, w.cb, w.irqEnabled, w.pend⟩, r)
      else (w, r)
  | .setOut _ v =>
      let w2 : DrvModel := ⟨v, w.trig, w.cb, w.irqEnabled, w.pend⟩
      if w.cb then
        match edgeEvent w.trig w.wire v with
        | some ev => fireEvent put w2 r ev
        | none => (w2, r)
      else (w2, r)
  | .irqOff => (⟨w.wire, w.trig, w.cb, false, w.pend⟩, r)
  | .irqOn =>
      (⟨w.wire, w.trig, w.cb, true, []⟩,
       w.pend.foldl (fun acc ev => GPIO_DrvEvent acc put ev) r)
  | _ => (w, r)

/-- The initial ideal world: wire low, no trigger, no callback, interrupts
enabled, nothing pending. -/
def w0 : DrvModel := ⟨0, ARM_GPIO_TRIGGER_NONE, false, true, []⟩

/-- The conforming-driver environment: every call returns `ARM_DRIVER_OK`
(both pins available) and `GetInput` reads the wire. -/
def idealEnv (put : Nat) : Env DrvModel :=
  ⟨idealStep put, fun _ _ => ARM_DRIVER_OK, fun w _ => w.wire⟩

/-- The unavailable-pin environment: identical hardware, but every `Setup`
call returns `ARM_DRIVER_ERROR`. -/
def unavailEnv (put : Nat) : Env DrvModel :=
  ⟨idealStep put,
   fun _ o => match o with
     | .setup _ _ => ARM_DRIVER_ERROR
     | _ => ARM_DRIVER_OK,
   fun w _ => w.wire⟩

/-- The reference run of the edge-trigger scenario of `DV_GPIO.c` against
the conforming driver, with pin under test 10 and auxiliary pin 11. -/
def idealSETrun : TState DrvModel :=
  DV.GPIO_SetEventTrigger (idealEnv 10) 10 11 (initTS w0)

/-- The reference run of the edge-trigger scenario of `DV_GPIO.MC.c`. -/
def idealSETrunMC : TState DrvModel :=
  MC.GPIO_SetEventTrigger (idealEnv 10) 10 11 (initTS w0)

/-- The trace a probe-guarded procedure emits when the pin-under-test probe
fails: the probing `Setup(pin, NULL)` call, the probe's `TEST_MESSAGE`, and
the caller's `TEST_FAIL`. -/
def probeFailActs (put : Nat) : List Act :=
  [.op (.setup put false), .message, .fail]

/-- The action sequence (trace shape) of `GPIO_SetEventTrigger` of
`DV_GPIO.c` when both availability probes succeed.  It exhibits the order of
the six edge-trigger sub-scenarios: after the common prelude, in the rising,
falling and either-rising sub-scenarios a recorder reset immediately
precedes the arming `SetEventTrigger` call, followed by the stimulus, the
settle delay and the three recorder reads; the either-falling sub-scenario
has a reset but no new arming call before its stimulus; the none
sub-scenario again has reset immediately before arming; the masked-window
sub-scenario arms either-edge BEFORE its recorder reset, then masks
interrupts, stimulates twice, unmasks, delays and reads. -/
def dvSetEventTriggerShape (put aux : Nat) : List ActS :=
  [.opS (.setup put false), .opS (.setup aux false),
   .opS (.setup put false), .opS (.setup aux false),
   .opS (.setup put true), .assertS,
   .opS (.setMode aux ARM_GPIO_PUSH_PULL), .opS (.setDir aux ARM_GPIO_OUTPUT),
   .opS (.setPull aux ARM_GPIO_PULL_NONE), .opS (.setOut aux 0),
   -- rising sub-scenario
   .recResetS, .opS (.setTrig put ARM_GPIO_TRIGGER_RISING_EDGE), .assertS,
   .opS (.setPull aux ARM_GPIO_PULL_NONE), .opS (.setOut aux 1),
   .opS (.delay 2), .assertMsgS, .assertMsgS, .assertMsgS,
   -- falling sub-scenario
   .recResetS, .opS (.setTrig put ARM_GPIO_TRIGGER_FALLING_EDGE), .assertS,
   .opS (.setPull aux ARM_GPIO_PULL_NONE), .opS (.setOut aux 0),
   .opS (.delay 2), .assertMsgS, .assertMsgS, .assertMsgS,
   -- either-edge, rising transition
   .recResetS, .opS (.setTrig put ARM_GPIO_TRIGGER_EITHER_EDGE), .assertS,
   .opS (.setPull aux ARM_GPIO_PULL_NONE), .opS (.setOut aux 1),
   .opS (.delay 2), .assertMsgS, .assertMsgS, .assertMsgS,
   -- either-edge, falling transition: reset, no new arming call
   .recResetS,
   .opS (.setPull aux ARM_GPIO_PULL_NONE), .opS (.setOut aux 0),
   .opS (.delay 2), .assertMsgS, .assertMsgS, .assertMsgS,
   -- trigger none
   .recResetS, .opS (.setTrig put ARM_GPIO_TRIGGER_NONE), .assertS,
   .opS (.setPull aux ARM_GPIO_PULL_NONE), .opS (.setOut aux 1),
   .opS (.setPull aux ARM_GPIO_PULL_NONE), .opS (.setOut aux 0),
   .opS (.delay 2), .assertMsgS, .assertMsgS, .assertMsgS,
   -- masked window: arming precedes the reset here
   .opS (.setTrig put ARM_GPIO_TRIGGER_EITHER_EDGE), .assertS,
   .recResetS, .opS .irqOff,
   .opS (.setPull aux ARM_GPIO_PULL_NONE), .opS (.setOut aux 1),
   .opS (.setPull aux ARM_GPIO_PULL_NONE), .opS (.setOut aux 0),
   .opS .irqOn, .opS (.delay 2), .assertMsgS, .assertMsgS, .assertMsgS,
   -- uninit
   .opS (.setDir aux ARM_GPIO_INPUT), .opS (.setup aux false),
   .opS (.setDir put ARM_GPIO_INPUT), .opS (.setup put false)]

/-- First half of the `DV_GPIO.MC.c` edge-trigger action sequence: the
probe, the API status checks, the pin setup and the rising, falling,
either-rising and either-falling sub-scenarios. -/
def mcSetEventTriggerShapeA (put aux : Nat) : List ActS :=
  [.opS (.setup put false),
   -- API status checks
   .opS (.setup put false), .assertS,
   .opS (.setTrig put ARM_GPIO_TRIGGER_NONE), .assertS,
   .opS (.setTrig put ARM_GPIO_TRIGGER_RISING_EDGE), .assertS,
   .opS (.setTrig put ARM_GPIO_TRIGGER_FALLING_EDGE), .assertS,
   .opS (.setTrig put ARM_GPIO_TRIGGER_EITHER_EDGE), .assertS,
   -- pin setup and initial drive low
   .opS (.setup aux false),
   .opS (.setDir aux ARM_GPIO_OUTPUT), .opS (.setMode aux ARM_GPIO_PUSH_PULL),
   .opS (.setPull aux ARM_GPIO_PULL_NONE), .opS (.setOut aux 0),
   -- rising sub-scenario
   .recResetS, .opS (.setTrig put ARM_GPIO_TRIGGER_RISING_EDGE), .assertS,
   .opS (.setDir aux ARM_GPIO_OUTPUT), .opS (.setMode aux ARM_GPIO_PUSH_PULL),
   .opS (.setPull aux ARM_GPIO_PULL_NONE), .opS (.setOut aux 1),
   .opS (.delay 100), .assertMsgS, .assertMsgS, .assertMsgS,
   -- falling sub-scenario
   .recResetS, .opS (.setTrig put ARM_GPIO_TRIGGER_FALLING_EDGE), .assertS,
   .opS (.setDir aux ARM_GPIO_OUTPUT), .opS (.setMode aux ARM_GPIO_PUSH_PULL),
   .opS (.setPull aux ARM_GPIO_PULL_NONE), .opS (.setOut aux 0),
   .opS (.delay 100), .assertMsgS, .assertMsgS, .assertMsgS,
   -- either-edge, rising transition
   .recResetS, .opS (.setTrig put ARM_GPIO_TRIGGER_EITHER_EDGE), .assertS,
   .opS (.setDir aux ARM_GPIO_OUTPUT), .opS (.setMode aux ARM_GPIO_PUSH_PULL),
   .opS (.setPull aux ARM_GPIO_PULL_NONE), .opS (.setOut aux 1),
   .opS (.delay 100), .assertMsgS, .assertMsgS, .assertMsgS,
   -- either-edge, falling transition: reset, no new arming call
   .recResetS,
   .opS (.setDir aux ARM_GPIO_OUTPUT), .opS (.setMode aux ARM_GPIO_PUSH_PULL),
   .opS (.setPull aux ARM_GPIO_PULL_NONE), .opS (.setOut aux 0),
   .opS (.delay 100), .assertMsgS, .assertMsgS, .assertMsgS]

/-- Second half of the `DV_GPIO.MC.c` edge-trigger action sequence: the
trigger-none and masked-window sub-scenarios and the teardown. -/
def mcSetEventTriggerShapeB (put aux : Nat) : List ActS :=
  [   -- trigger none
   .recResetS, .opS (.setTrig put ARM_GPIO_TRIGGER_NONE), .assertS,
   .opS (.setDir aux ARM_GPIO_OUTPUT), .opS (.setMode aux ARM_GPIO_PUSH_PULL),
   .opS (.setPull aux ARM_GPIO_PULL_NONE), .opS (.setOut aux 1),
   .opS (.setDir aux ARM_GPIO_OUTPUT), .opS (.setMode aux ARM_GPIO_PUSH_PULL),
   .opS (.setPull aux ARM_GPIO_PULL_NONE), .opS (.setOut aux 0),
   .opS (.delay 100), .assertMsgS, .assertMsgS, .assertMsgS,
   -- masked window: arming precedes the reset here
   .opS (.setTrig put ARM_GPIO_TRIGGER_EITHER_EDGE), .assertS,
   .recResetS, .opS .irqOff,
   .opS (.setDir aux ARM_GPIO_OUTPUT), .opS (.setMode aux ARM_GPIO_PUSH_PULL),
   .opS (.setPull aux ARM_GPIO_PULL_NONE), .opS (.setOut aux 1),
   .opS (.setDir aux ARM_GPIO_OUTPUT), .opS (.setMode aux ARM_GPIO_PUSH_PULL),
   .opS (.setPull aux ARM_GPIO_PULL_NONE), .opS (.setOut aux 0),
   .opS .irqOn, .opS (.delay 100), .assertMsgS, .assertMsgS, .assertMsgS,
   -- trigger disable and pin disable
   .opS (.setTrig put ARM_GPIO_TRIGGER_NONE),
   .opS (.setOut aux 0), .opS (.setDir aux ARM_GPIO_INPUT),
   .opS (.setMode aux ARM_GPIO_OPEN_DRAIN)]

/-- The action sequence (trace shape) of `GPIO_SetEventTrigger` of
`DV_GPIO.MC.c` when the pin-under-test availability probe succeeds (the MC
variant probes only the pin under test).  After the preliminary API status
checks, its six edge-trigger sub-scenarios follow the same ordering as the
`DV_GPIO.c` variant: reset immediately before arming in the rising, falling,
either-rising and none sub-scenarios, a reset with no new arming call in the
either-falling sub-scenario, and arming BEFORE the reset in the
masked-window sub-scenario. -/
def mcSetEventTriggerShape (put aux : Nat) : List ActS :=
  mcSetEventTriggerShapeA put aux ++ mcSetEventTriggerShapeB put aux

/-- Bitwise fact behind the 8-bit mask update: for an 8-bit accumulator
`a`, OR-ing in `b` and truncating equals OR-ing in the low 8 bits of `b`. -/
theorem or_mod_256 (a b : Nat) (ha : a < 256) :
    (a ||| b) % 256 = a ||| b % 256 := by
  have h256 : (256 : Nat) = 2 ^ 8 := by norm_num
  apply Nat.eq_of_testBit_eq
  intro i
  rw [h256, Nat.testBit_mod_two_pow, Nat.testBit_lor, Nat.testBit_lor,
    Nat.testBit_mod_two_pow]
  by_cases h : i < 8
  · simp [h]
  · have hge : 8 ≤ i := Nat.le_of_not_lt h
    have ha2 : a < 2 ^ i :=
      lt_of_lt_of_le (h256 ▸ ha) (Nat.pow_le_pow_right (by norm_num) hge)
    simp [h, Nat.testBit_eq_false_of_lt ha2]

/-- Bitwise fact behind claim C10: the truncated OR only depends on the low
8 bits of the incoming event flags. -/
theorem or_mod_mod_256 (a b : Nat) :
    (a ||| b) % 256 = (a ||| b % 256) % 256 := by
  have h256 : (256 : Nat) = 2 ^ 8 := by norm_num
  apply Nat.eq_of_testBit_eq
  intro i
  rw [h256, Nat.testBit_mod_two_pow, Nat.testBit_mod_two_pow,
    Nat.testBit_lor, Nat.testBit_lor, Nat.testBit_mod_two_pow]
  by_cases h : i < 8
  · simp [h]
  · simp [h]

/-- Claim C1 counterexample: the claim says the latched mask becomes the
bitwise OR of its previous value and `event_flags`, for every invocation.
With previous mask 0 and `event_flags = 256` (bit 8 set, a legal `uint32_t`
argument) the 8-bit variable `gpio_event` reads 0 afterwards, not
`0 ||| 256 = 256`: the `uint8_t` compound assignment truncates. -/
theorem claim_C1_cex : (GPIO_DrvEvent ⟨0, 0, 0⟩ 5 256).event ≠ 0 ||| 256 := by
  decide

/-- Claim C1 amended: on every invocation of the callback with arguments
`(pin, event_flags)`, the latched 8-bit mask becomes the OR of its previous
value and the LOW 8 BITS of `event_flags`, the last-triggering pin field is
overwritten with `pin`, and the 8-bit occurrence count is incremented by one
modulo 256; the equality of whole recorder states shows nothing else
changes, and the callback returns nothing (it is a pure state update). -/
theorem claim_C1_amended (s : Recorder) (p ev : Nat) (h : s.event < 256) :
    GPIO_DrvEvent s p ev = ⟨s.event ||| ev % 256, p, (s.cnt + 1) % 256⟩ := by
  unfold GPIO_DrvEvent
  rw [or_mod_256 s.event ev h]

/-- Witness for the amended claim C1 at a concrete input. -/
theorem claim_C1_witness :
    (3 : Nat) < 256 ∧
      GPIO_DrvEvent ⟨3, 9, 250⟩ 7 498 = ⟨3 ||| 498 % 256, 7, 251⟩ :=
  ⟨by decide, claim_C1_amended ⟨3, 9, 250⟩ 7 498 (by decide)⟩

set_option maxRecDepth 8192 in
/-- Claim C10: the recorder's count and latched mask are 8-bit unsigned
variables: each callback invocation increments the count modulo 256 (in
particular 256 events after a reset the count reads 0 again), both fields
stay below 256, and the latched mask retains only the low 8 bits of the
32-bit `event_flags` argument. -/
theorem claim_C10 :
    (∀ (s : Recorder) (p ev : Nat),
        (GPIO_DrvEvent s p ev).cnt = (s.cnt + 1) % 256 ∧
        (GPIO_DrvEvent s p ev).cnt < 256 ∧
        (GPIO_DrvEvent s p ev).event < 256 ∧
        (GPIO_DrvEvent s p ev).event = (GPIO_DrvEvent s p (ev % 256)).event) ∧
      ((fun r => GPIO_DrvEvent r 0 1)^[256] recorderReset).cnt = 0 := by
  constructor
  · intro s p ev
    refine ⟨rfl, Nat.mod_lt _ (by norm_num), Nat.mod_lt _ (by norm_num), ?_⟩
    exact or_mod_mod_256 s.event ev
  · decide

/-- Claim C2: the rising-edge sub-scenario asserts exactly that the latched
mask equals `ARM_GPIO_EVENT_RISING_EDGE`, the last-triggering pin equals the
pin under test, and the occurrence count equals 1 (first conjunct: the
sub-scenario's assertion conjunction holds for exactly those recorder
states); the second conjunct exhibits, on the reference run against the
conforming driver, the sub-scenario's action sequence — reset the recorder,
arm the rising-edge trigger, drive the auxiliary pin from 0 to 1, wait the
settle delay, then perform exactly the three recorder assertions; the third
conjunct shows those assertions pass on that run. -/
theorem claim_C2 :
    (∀ (put : Nat) (r : Recorder),
        risingSubPass put r = true ↔
          r.event = ARM_GPIO_EVENT_RISING_EDGE ∧ r.pin = put ∧ r.cnt = 1) ∧
      (shapes idealSETrun.tr).take 19 =
        [.opS (.setup 10 false), .opS (.setup 11 false),
         .opS (.setup 10 false), .opS (.setup 11 false),
         .opS (.setup 10 true), .assertS,
         .opS (.setMode 11 ARM_GPIO_PUSH_PULL),
         .opS (.setDir 11 ARM_GPIO_OUTPUT),
         .opS (.setPull 11 ARM_GPIO_PULL_NONE), .opS (.setOut 11 0),
         .recResetS, .opS (.setTrig 10 ARM_GPIO_TRIGGER_RISING_EDGE),
         .assertS,
         .opS (.setPull 11 ARM_GPIO_PULL_NONE), .opS (.setOut 11 1),
         .opS (.delay 2), .assertMsgS, .assertMsgS, .assertMsgS] ∧
      allAssertsTrue idealSETrun.tr = true := by
  refine ⟨?_, by decide, by decide⟩
  intro put r
  simp [risingSubPass, risingMaskOk, pinIs, cntIs, Bool.and_eq_true,
    beq_iff_eq, and_assoc]

/-- Claim C3 counterexample: the claim describes the masked-window accept
set as exactly count 1 or 2 together with the mask condition, but the code
additionally asserts that the last-triggering pin equals
`GPIO_PIN_UNDER_TEST` (configured as 0): the recorder outcome
`(mask 1, pin 7, count 1)` satisfies the claimed conditions yet fails the
sub-scenario's assertion conjunction. -/
theorem claim_C3_cex :
    specMaskedAccept ⟨1, 7, 1⟩ = true ∧ maskedSubPass 0 ⟨1, 7, 1⟩ = false := by
  decide

/-- Claim C3 amended: the masked-window sub-scenario accepts exactly the
outcomes where the occurrence count is 1 or 2, the latched mask has the
rising- or falling-edge bit set or equals the either-edge flag, AND the
last-triggering pin equals the pin under test; it never requires an exact
single outcome — the two distinct outcomes exhibited are both accepted. -/
theorem claim_C3_amended :
    (∀ (put : Nat) (r : Recorder),
        maskedSubPass put r = true ↔
          (r.cnt = 1 ∨ r.cnt = 2) ∧
            (r.event &&&
                (ARM_GPIO_EVENT_RISING_EDGE ||| ARM_GPIO_EVENT_FALLING_EDGE)
                ≠ 0 ∨
              r.event = ARM_GPIO_EVENT_EITHER_EDGE) ∧
            r.pin = put) ∧
      maskedSubPass 10 ⟨1, 10, 1⟩ = true ∧
      maskedSubPass 10 ⟨3, 10, 2⟩ = true := by
  refine ⟨?_, by decide, by decide⟩
  intro put r
  simp only [maskedSubPass, maskedMaskOk, pinIs, maskedCntOk,
    Bool.and_eq_true, Bool.or_eq_true, beq_iff_eq, bne_iff_ne, ne_eq]
  tauto

/-- Claim C4: the trigger-none sub-scenario's assertion conjunction holds
for exactly the zero recorder (mask 0, pin 0, count 0); the reference run
against the conforming driver exhibits its action sequence — reset, arm
trigger none, drive the auxiliary pin 0 to 1 then 1 to 0, settle delay,
then exactly the three recorder assertions — and those assertions pass
there (no callback invocation is observable). -/
theorem claim_C4 :
    (∀ r : Recorder,
        noneSubPass r = true ↔ r.event = 0 ∧ r.pin = 0 ∧ r.cnt = 0) ∧
      ((shapes idealSETrun.tr).drop 44).take 11 =
        [.recResetS, .opS (.setTrig 10 ARM_GPIO_TRIGGER_NONE), .assertS,
         .opS (.setPull 11 ARM_GPIO_PULL_NONE), .opS (.setOut 11 1),
         .opS (.setPull 11 ARM_GPIO_PULL_NONE), .opS (.setOut 11 0),
         .opS (.delay 2), .assertMsgS, .assertMsgS, .assertMsgS] ∧
      allAssertsTrue idealSETrun.tr = true := by
  refine ⟨?_, by decide, by decide⟩
  intro r
  simp [noneSubPass, noneMaskOk, nonePinOk, cntIs, Bool.and_eq_true,
    beq_iff_eq, and_assoc]

/-- Claim C5: in the either-edge single-transition sub-scenarios, the mask
assertion accepts exactly the specific-edge flag of the transition or the
either-edge flag: for the rising transition the accepted masks are
`ARM_GPIO_EVENT_RISING_EDGE` and `ARM_GPIO_EVENT_EITHER_EDGE` and no other
value; for the falling transition `ARM_GPIO_EVENT_FALLING_EDGE` and
`ARM_GPIO_EVENT_EITHER_EDGE` and no other value. -/
theorem claim_C5 :
    ∀ r : Recorder,
      (eitherRisingMaskOk r = true ↔
        (r.event = ARM_GPIO_EVENT_RISING_EDGE ∨
          r.event = ARM_GPIO_EVENT_EITHER_EDGE)) ∧
      (eitherFallingMaskOk r = true ↔
        (r.event = ARM_GPIO_EVENT_FALLING_EDGE ∨
          r.event = ARM_GPIO_EVENT_EITHER_EDGE)) := by
  intro r
  constructor <;>
    simp [eitherRisingMaskOk, eitherFallingMaskOk, Bool.or_eq_true,
      beq_iff_eq]

/-- Claim C6 counterexample: the claim requires that in every edge-trigger
sub-scenario the recorder reset is performed immediately before arming the
new trigger condition.  On the scenario's trace (reference run, pin under
test 10) this discipline fails: the either-edge falling sub-scenario's reset
is followed by the stimulus with no new arming call, and in the
masked-window sub-scenario the arming `SetEventTrigger(either-edge)` call
precedes the reset. -/
theorem claim_C6_cex :
    resetImmediatelyArms 10 (shapes idealSETrun.tr) = false := by decide

/-- The trace of `emit` extends the previous trace by the entry. -/
theorem tr_emit {σ : Type} (s : TState σ) (a : Act) :
    (emit s a).tr = s.tr ++ [a] := rfl

/-- The trace of `runOp` extends the previous trace by the operation. -/
theorem tr_runOp {σ : Type} (e : Env σ) (s : TState σ) (o : DrvOp) :
    (runOp e s o).tr = s.tr ++ [.op o] := rfl

/-- The trace of the recorder reset extends the previous trace by it. -/
theorem tr_doReset {σ : Type} (s : TState σ) :
    (doReset s).tr = s.tr ++ [.recReset] := rfl

/-- The trace of a recorder assertion records its outcome. -/
theorem tr_assertRec {σ : Type} (s : TState σ) (c : Recorder → Bool) :
    (assertRec s c).tr = s.tr ++ [.assertMsg (c s.r)] := rfl

/-- The trace of a status assertion records the call and its outcome. -/
theorem tr_assertStat {σ : Type} (e : Env σ) (s : TState σ) (o : DrvOp) :
    (assertStat e s o).tr =
      s.tr ++ [.op o, .assert (e.status s.w o == ARM_DRIVER_OK)] := by
  simp [assertStat, tr_emit, tr_runOp, runOp, emit]

/-- The trace of an input assertion records its outcome. -/
theorem tr_assertInput {σ : Type} (e : Env σ) (s : TState σ) (pin v : Nat) :
    (assertInput e s pin v).tr =
      s.tr ++ [.assert (e.input s.w pin == v)] := rfl

/-- Trace shapes distribute over concatenation. -/
theorem shapes_append (l1 l2 : List Act) :
    shapes (l1 ++ l2) = shapes l1 ++ shapes l2 := List.map_append _ _ _

set_option maxHeartbeats 2000000 in
/-- Claim C6 amended: for any driver environment in which the availability
probes succeed, the edge-trigger scenarios of BOTH files perform exactly the
action sequences `dvSetEventTriggerShape` and `mcSetEventTriggerShape`: the
rising, falling, either-rising and none sub-scenarios each reset the
recorder immediately before arming and then stimulate, wait the settle
delay and read/assert; the either-falling sub-scenario resets and
stimulates without a new arming call; the masked-window sub-scenario arms
either-edge first, then resets, masks interrupts, stimulates twice,
unmasks, waits the settle delay and reads/asserts. -/
theorem claim_C6_amended (σ : Type) (e : Env σ) (put aux : Nat) (w : σ)
    (hput : ∀ s, e.status s (.setup put false) = ARM_DRIVER_OK)
    (haux : ∀ s, e.status s (.setup aux false) = ARM_DRIVER_OK) :
    shapes (DV.GPIO_SetEventTrigger e put aux (initTS w)).tr =
      dvSetEventTriggerShape put aux ∧
    shapes (MC.GPIO_SetEventTrigger e put aux (initTS w)).tr =
      mcSetEventTriggerShape put aux := by
  constructor
  · simp only [DV.GPIO_SetEventTrigger, hput, haux, reduceIte,
      DV.PinUnderTestInit, DV.PinUnderTestUninit, DV.AuxiliaryPinInit,
      DV.AuxiliaryPinUninit, DV.AuxiliaryPinConfigInput,
      DV.AuxiliaryPinConfigOutput, DV.AuxiliaryPinSetOutput,
      DV.AuxiliaryPinDisable,
      tr_emit, tr_runOp, tr_doReset, tr_assertRec, tr_assertStat,
      tr_assertInput, shapes_append, List.append_assoc]
    simp [shapes, Act.shape, initTS, dvSetEventTriggerShape]
  · simp only [MC.GPIO_SetEventTrigger, hput, reduceIte,
      MC.PinPull, MC.PinDisable,
      tr_emit, tr_runOp, tr_doReset, tr_assertRec, tr_assertStat,
      tr_assertInput, shapes_append, List.append_assoc]
    simp [shapes, Act.shape, initTS, mcSetEventTriggerShape,
      mcSetEventTriggerShapeA, mcSetEventTriggerShapeB]

/-- Witness for the amended claim C6: the conforming-driver environment
satisfies both probe hypotheses, for the scenarios of both files. -/
theorem claim_C6_witness :
    shapes (DV.GPIO_SetEventTrigger (idealEnv 10) 10 11 (initTS w0)).tr =
      dvSetEventTriggerShape 10 11 ∧
    shapes (MC.GPIO_SetEventTrigger (idealEnv 10) 10 11 (initTS w0)).tr =
      mcSetEventTriggerShape 10 11 :=
  claim_C6_amended DrvModel (idealEnv 10) 10 11 w0 (fun _ => rfl)
    (fun _ => rfl)

/-- Claim C7 counterexample: the claim says EVERY test procedure detects
pin unavailability up front and fails immediately.  `GPIO_SetOutput` of
`DV_GPIO.MC.c` does not: run against a driver whose `Setup` always returns
an error, it reports no failure and still executes its remaining steps
(among them `SetDirection(pin-under-test, OUTPUT)`). -/
theorem claim_C7_cex :
    hasFail (MC.GPIO_SetOutput (unavailEnv 10) 10 11 (initTS w0)).tr
        = false ∧
      (shapes (MC.GPIO_SetOutput (unavailEnv 10) 10 11 (initTS w0)).tr).contains
        (.opS (.setDir 10 ARM_GPIO_OUTPUT)) = true := by
  decide

set_option maxRecDepth 100000 in
/-- Claim C7 amended: every test procedure EXCEPT `GPIO_SetOutput` and
`GPIO_GetInput` of `DV_GPIO.MC.c` probes pin-under-test availability up
front with `Setup(pin, NULL)`; when that probe does not return
`ARM_DRIVER_OK` the procedure's whole trace is the probing call, a message
and `TEST_FAIL` — it returns immediately with none of its remaining steps
executed (first block, one conjunct per probe-guarded procedure).  The two
exceptions perform no probe and report no `TEST_FAIL` even against the
driver whose `Setup` always fails (second block).  When the probes succeed
the procedures proceed: against the conforming driver every procedure runs
to completion without `TEST_FAIL` and with a trace longer than the
three-entry failure trace (third block). -/
theorem claim_C7_amended (σ : Type) (e : Env σ) (put aux : Nat) (w : σ) :
    (e.status w (.setup put false) ≠ ARM_DRIVER_OK →
      (DV.GPIO_Setup e put (initTS w)).tr = probeFailActs put ∧
      (DV.GPIO_SetDirection e put aux (initTS w)).tr = probeFailActs put ∧
      (DV.GPIO_SetOutputMode e put aux (initTS w)).tr = probeFailActs put ∧
      (DV.GPIO_SetPullResistor e put aux (initTS w)).tr = probeFailActs put ∧
      (DV.GPIO_SetEventTrigger e put aux (initTS w)).tr = probeFailActs put ∧
      (DV.GPIO_SetOutput e put aux (initTS w)).tr = probeFailActs put ∧
      (DV.GPIO_GetInput e put aux (initTS w)).tr = probeFailActs put ∧
      (MC.GPIO_Setup e put (initTS w)).tr = probeFailActs put ∧
      (MC.GPIO_SetDirection e put (initTS w)).tr = probeFailActs put ∧
      (MC.GPIO_SetOutputMode e put (initTS w)).tr = probeFailActs put ∧
      (MC.GPIO_SetPullResistor e put (initTS w)).tr = probeFailActs put ∧
      (MC.GPIO_SetEventTrigger e put aux (initTS w)).tr = probeFailActs put) ∧
    (hasFail (MC.GPIO_SetOutput (unavailEnv 10) 10 11 (initTS w0)).tr
        = false ∧
      hasFail (MC.GPIO_GetInput (unavailEnv 10) 10 11 (initTS w0)).tr
        = false ∧
      hasFail (MC.GPIO_SetOutput (idealEnv 10) 10 11 (initTS w0)).tr
        = false ∧
      hasFail (MC.GPIO_GetInput (idealEnv 10) 10 11 (initTS w0)).tr
        = false) ∧
    (hasFail (DV.GPIO_Setup (idealEnv 10) 10 (initTS w0)).tr = false ∧
      3 < (DV.GPIO_Setup (idealEnv 10) 10 (initTS w0)).tr.length ∧
      hasFail (DV.GPIO_SetDirection (idealEnv 10) 10 11 (initTS w0)).tr
          = false ∧
      3 < (DV.GPIO_SetDirection (idealEnv 10) 10 11 (initTS w0)).tr.length ∧
      hasFail (DV.GPIO_SetOutputMode (idealEnv 10) 10 11 (initTS w0)).tr
          = false ∧
      3 < (DV.GPIO_SetOutputMode (idealEnv 10) 10 11 (initTS w0)).tr.length ∧
      hasFail (DV.GPIO_SetPullResistor (idealEnv 10) 10 11 (initTS w0)).tr
          = false ∧
      3 < (DV.GPIO_SetPullResistor (idealEnv 10) 10 11
            (initTS w0)).tr.length ∧
      hasFail (DV.GPIO_SetEventTrigger (idealEnv 10) 10 11 (initTS w0)).tr
          = false ∧
      3 < (DV.GPIO_SetEventTrigger (idealEnv 10) 10 11
            (initTS w0)).tr.length ∧
      hasFail (DV.GPIO_SetOutput (idealEnv 10) 10 11 (initTS w0)).tr
          = false ∧
      3 < (DV.GPIO_SetOutput (idealEnv 10) 10 11 (initTS w0)).tr.length ∧
      hasFail (DV.GPIO_GetInput (idealEnv 10) 10 11 (initTS w0)).tr
          = false ∧
      3 < (DV.GPIO_GetInput (idealEnv 10) 10 11 (initTS w0)).tr.length ∧
      hasFail (MC.GPIO_Setup (idealEnv 10) 10 (initTS w0)).tr = false ∧
      3 < (MC.GPIO_Setup (idealEnv 10) 10 (initTS w0)).tr.length ∧
      hasFail (MC.GPIO_SetDirection (idealEnv 10) 10 (initTS w0)).tr
          = false ∧
      3 < (MC.GPIO_SetDirection (idealEnv 10) 10 (initTS w0)).tr.length ∧
      hasFail (MC.GPIO_SetOutputMode (idealEnv 10) 10 (initTS w0)).tr
          = false ∧
      3 < (MC.GPIO_SetOutputMode (idealEnv 10) 10 (initTS w0)).tr.length ∧
      hasFail (MC.GPIO_SetPullResistor (idealEnv 10) 10 (initTS w0)).tr
          = false ∧
      3 < (MC.GPIO_SetPullResistor (idealEnv 10) 10 (initTS w0)).tr.length ∧
      hasFail (MC.GPIO_SetEventTrigger (idealEnv 10) 10 11 (initTS w0)).tr
          = false ∧
      3 < (MC.GPIO_SetEventTrigger (idealEnv 10) 10 11
            (initTS w0)).tr.length) := by
  refine ⟨fun h => ?_, by decide, by decide⟩
  simp only [DV.GPIO_Setup, DV.GPIO_SetDirection, DV.GPIO_SetOutputMode,
    DV.GPIO_SetPullResistor, DV.GPIO_SetEventTrigger, DV.GPIO_SetOutput,
    DV.GPIO_GetInput, MC.GPIO_Setup, MC.GPIO_SetDirection,
    MC.GPIO_SetOutputMode, MC.GPIO_SetPullResistor, MC.GPIO_SetEventTrigger,
    initTS, if_neg h]
  exact ⟨rfl, rfl, rfl, rfl, rfl, rfl, rfl, rfl, rfl, rfl, rfl, rfl⟩

/-- Witness for the amended claim C7: with the unavailable-pin environment
the probe-guarded procedures emit exactly the three-entry failure trace. -/
theorem claim_C7_witness :
    (DV.GPIO_Setup (unavailEnv 10) 10 (initTS w0)).tr = probeFailActs 10 ∧
      (MC.GPIO_SetEventTrigger (unavailEnv 10) 10 11 (initTS w0)).tr =
        probeFailActs 10 :=
  ⟨((claim_C7_amended DrvModel (unavailEnv 10) 10 11 w0).1 (by decide)).1,
   ((claim_C7_amended DrvModel (unavailEnv 10) 10 11
        w0).1 (by decide)).2.2.2.2.2.2.2.2.2.2.2⟩

/-- In the conforming driver model, `SetOutput(p, v)` leaves the wired level
at `v` whatever the previous state (the possible callback delivery does not
change the wire). -/
theorem idealStep_setOut_wire (put p v : Nat) (w : DrvModel) (r : Recorder) :
    ((idealStep put w r (.setOut p v)).1).wire = v := by
  simp only [idealStep]
  by_cases hcb : w.cb
  · simp only [hcb, if_true]
    cases hev : edgeEvent w.trig w.wire v
    · simp [hev]
    · simp only [hev, fireEvent]
      by_cases hirq : w.irqEnabled
      · simp [hirq]
      · simp [hirq]
  · simp [hcb]

/-- Claim C8: with the pin under test configured as push-pull output,
writing level `L` with `SetOutput` and reading the input of a wired pin
after the settle delay yields `L`, for `L` in `{0, 1}` (first block: in the
conforming driver model, from any state, the input read after the write —
and still after the delay — is `L`); the embedded round-trip test
procedures `GPIO_SetOutput` of both files pass against that model, and the
`DV_GPIO.c` procedure performs exactly the write-0/delay/read-0 then
write-1/delay/read-1 sequence (remaining blocks). -/
theorem claim_C8 (put aux L : Nat) (hL : L ≤ 1) (w : DrvModel)
    (r : Recorder) :
    ((idealEnv put).input (idealStep put w r (.setOut put L)).1 aux = L ∧
      (idealEnv put).input
          (idealStep put (idealStep put w r (.setOut put L)).1
            (idealStep put w r (.setOut put L)).2 (.delay 2)).1 aux = L) ∧
      allAssertsTrue (DV.GPIO_SetOutput (idealEnv 10) 10 11 (initTS w0)).tr
          = true ∧
      allAssertsTrue (MC.GPIO_SetOutput (idealEnv 10) 10 11 (initTS w0)).tr
          = true ∧
      shapes (DV.GPIO_SetOutput (idealEnv 10) 10 11 (initTS w0)).tr =
        [.opS (.setup 10 false), .opS (.setup 11 false),
         .opS (.setup 10 false), .opS (.setup 11 false),
         .opS (.setDir 10 ARM_GPIO_OUTPUT), .assertS,
         .opS (.setMode 10 ARM_GPIO_PUSH_PULL), .assertS,
         .opS (.setDir 11 ARM_GPIO_INPUT),
         .opS (.setOut 10 0), .opS (.delay 2), .assertS,
         .opS (.setOut 10 1), .opS (.delay 2), .assertS,
         .opS (.setDir 11 ARM_GPIO_INPUT), .opS (.setup 11 false),
         .opS (.setDir 10 ARM_GPIO_INPUT), .opS (.setup 10 false)] := by
  refine ⟨⟨?_, ?_⟩, by decide, by decide, by decide⟩
  · simpa [idealEnv] using idealStep_setOut_wire put put L w r
  · have hdel :
        (idealStep put (idealStep put w r (.setOut put L)).1
            (idealStep put w r (.setOut put L)).2 (.delay 2)).1 =
          (idealStep put w r (.setOut put L)).1 := rfl
    rw [hdel]
    simpa [idealEnv] using idealStep_setOut_wire put put L w r

/-- Witness for claim C8 at the concrete level `L = 1`. -/
theorem claim_C8_witness :
    (1 : Nat) ≤ 1 ∧
      (idealEnv 10).input (idealStep 10 w0 recorderReset (.setOut 10 1)).1 11
        = 1 :=
  ⟨by decide, (claim_C8 10 11 1 (by decide) w0 recorderReset).1.1⟩

/-- Claim C9: for any driver environment in which `Setup(pin, NULL)` keeps
returning `ARM_DRIVER_OK` (the pin remains available), the `GPIO_Setup`
procedures of both files run the availability probe, then a further
`Setup(pin, NULL)` call whose recorded assertion outcome is true — the
repeated no-callback `Setup` following the probe's successful `Setup` is
asserted to return `ARM_DRIVER_OK`, and passes. -/
theorem claim_C9 (σ : Type) (e : Env σ) (put : Nat) (w : σ)
    (hput : ∀ s, e.status s (.setup put false) = ARM_DRIVER_OK) :
    ((DV.GPIO_Setup e put (initTS w)).tr[0]? =
        some (.op (.setup put false)) ∧
      (DV.GPIO_Setup e put (initTS w)).tr[1]? =
        some (.op (.setup put false)) ∧
      (DV.GPIO_Setup e put (initTS w)).tr[2]? = some (.assert true)) ∧
    ((MC.GPIO_Setup e put (initTS w)).tr[0]? =
        some (.op (.setup put false)) ∧
      (MC.GPIO_Setup e put (initTS w)).tr[1]? =
        some (.op (.setup put false)) ∧
      (MC.GPIO_Setup e put (initTS w)).tr[2]? = some (.assert true)) := by
  simp only [DV.GPIO_Setup, MC.GPIO_Setup, DV.PinUnderTestUninit,
    assertStat, runOp, emit, initTS, hput, reduceIte]
  exact ⟨⟨rfl, rfl, rfl⟩, ⟨rfl, rfl, rfl⟩⟩

/-- Witness for claim C9: the conforming-driver environment keeps the pin
available. -/
theorem claim_C9_witness :
    ((DV.GPIO_Setup (idealEnv 10) 10 (initTS w0)).tr[0]? =
        some (.op (.setup 10 false)) ∧
      (DV.GPIO_Setup (idealEnv 10) 10 (initTS w0)).tr[1]? =
        some (.op (.setup 10 false)) ∧
      (DV.GPIO_Setup (idealEnv 10) 10 (initTS w0)).tr[2]? =
        some (.assert true)) ∧
    ((MC.GPIO_Setup (idealEnv 10) 10 (initTS w0)).tr[0]? =
        some (.op (.setup 10 false)) ∧
      (MC.GPIO_Setup (idealEnv 10) 10 (initTS w0)).tr[1]? =
        some (.op (.setup 10 false)) ∧
      (MC.GPIO_Setup (idealEnv 10) 10 (initTS w0)).tr[2]? =
        some (.assert true)) :=
  claim_C9 DrvModel (idealEnv 10) 10 w0 (fun _ => rfl)
